import Mathlib

/-!
Verification model of `merge-and-update-css-bundle` (`src/index.ts`).

The plugin maintains two buffer files (`styles.temp.css`, `styles.backup.css`),
a shadow symlink (`.styles.shadow.css`) pointing at one of the buffers, and a
main symlink (`styles.css`) pointing at the shadow link.  `onSuccess` (refresh)
scans for `*.module.css` fragments, detects changes via a combined sha256
fingerprint plus an independent set-membership check, merges fragment contents
in batches of 5, runs a postcss deduplication pass, and publishes through
`atomicStyleUpdate`.  `onClear` force-publishes empty content.

External collaborators (the sha256 digest, the postcss discard-duplicates
transform, fragment file contents) are modelled as function parameters; the
filesystem state relevant to publication is the record `FS` below.  Possible
failures of the external steps (scan, hashing, fragment reads, postcss, and the
symlink-replacement step) are modelled by boolean injection flags, mirroring
the try/catch structure of the source.
-/

namespace MergeCss

/-- Fragment file paths are plain strings. -/
abbrev FragPath := String

/-- The two alternating buffer files, `styles.temp.css` and `styles.backup.css`
(src/index.ts lines 100-107). -/
inductive Buffer where
  | temp
  | backup
deriving DecidableEq

/-- Filesystem mutations performed by the Atomic Publisher: buffer-file writes,
deletion of the shadow link, re-creation of the shadow link pointing at a
buffer, and creation of the main link pointing at the shadow link. -/
inductive FsEvent where
  | writeBuf (b : Buffer) (content : String)
  | unlinkShadow
  | linkShadow (b : Buffer)
  | linkMain
deriving DecidableEq

/-- Publication-relevant filesystem state: the contents of the two buffer files
(`none` = file absent), the target of the shadow symlink (`none` = link
absent; in every state the core produces, the shadow link targets a buffer
file), and whether the main symlink exists (it is only ever created pointing at
the shadow link, src/index.ts lines 180, 217). -/
structure FS where
  tempContent : Option String
  backupContent : Option String
  shadowTarget : Option Buffer
  mainLinked : Bool
deriving DecidableEq

/-- Content of a buffer file, if it exists. -/
def FS.readBuffer (fs : FS) : Buffer → Option String
  | Buffer.temp => fs.tempContent
  | Buffer.backup => fs.backupContent

/-- Overwrite a buffer file (creating it if absent). -/
def FS.writeBuf (fs : FS) (b : Buffer) (c : String) : FS :=
  match b with
  | Buffer.temp => { fs with tempContent := some c }
  | Buffer.backup => { fs with backupContent := some c }

/-- What an external reader sees when resolving `styles.css` through the shadow
link to the active buffer file. -/
def FS.resolveMain (fs : FS) : Option String :=
  if fs.mainLinked then fs.shadowTarget.bind fs.readBuffer else none

/-- Filesystem state before the plugin has ever run. -/
def initialFS : FS :=
  { tempContent := none, backupContent := none, shadowTarget := none, mainLinked := false }

/-- Options record of the plugin (src/index.ts lines 81-85).  All fields are
optional; the source destructures only `verbose` (line 93: the statement
reading the options takes `verbose` with default `true` and nothing else). -/
structure MergeCssPluginOptions where
  extensions : Option (List String)
  deduplicate : Option Bool
  verbose : Option Bool

/-- Closure state of `mergeCssPlugin`: the change detector's remembered file
set and hash (src/index.ts lines 121-122; the JS `Set` is modelled as a
duplicate-free list in insertion order) together with the filesystem state. -/
structure PluginState where
  lastKnownFiles : List FragPath
  lastKnownHash : String
  fs : FS
deriving DecidableEq

/-- Plugin state at construction time: empty remembered set, empty hash
(src/index.ts lines 121-122), nothing on disk yet. -/
def initialState : PluginState :=
  { lastKnownFiles := [], lastKnownHash := "", fs := initialFS }

/-- Splits a list into consecutive chunks, `k` counting the free slots left in
the current chunk `cur` (held in reverse).  `chunksAux k cur l` with `k = 5`
and `cur = []` yields the batches of 5 used by both `calculateHash` and the
merge loop (src/index.ts lines 69-76 and 311-321). -/
def chunksAux {α : Type} : Nat → List α → List α → List (List α)
  | _, cur, [] => if cur.isEmpty then [] else [cur.reverse]
  | 0, cur, a :: l => cur.reverse :: chunksAux 4 [a] l
  | Nat.succ k, cur, a :: l => chunksAux k (a :: cur) l

/-- Batches of size 5 in order, mirroring `for (let i = 0; i < xs.length; i += batchSize)`
with `batchSize = 5`. -/
def chunks5 {α : Type} (l : List α) : List (List α) :=
  chunksAux 5 [] l

/-- First-occurrence deduplication, mirroring `new Set(moduleFiles)`
(src/index.ts line 337): membership in `seen` is what the JS `Set` has
already inserted. -/
def dedupFirstAux {α : Type} [DecidableEq α] (seen : List α) : List α → List α
  | [] => []
  | a :: l => if a ∈ seen then dedupFirstAux seen l else a :: dedupFirstAux (a :: seen) l

/-- The JS `new Set(l)` as a duplicate-free list in insertion order. -/
def jsSet {α : Type} [DecidableEq α] (l : List α) : List α :=
  dedupFirstAux [] l

/-- The JS emptiness test `!s.trim()` (src/index.ts lines 204, 346, 353):
true exactly when the string contains nothing but whitespace, i.e. trimming
leaves the empty string. -/
def trimEmpty (s : String) : Bool :=
  s.data.all Char.isWhitespace

/-- Concatenation of a list of strings with no separator, modelling repeated
`+=` accumulation (string concatenation is associative with identity `""`, so
the left-fold of the source equals this right-fold). -/
def concatAll : List String → String
  | [] => ""
  | s :: l => s ++ concatAll l

/-- Hash of a single fragment file: the sha256 hex digest of its bytes
(src/index.ts lines 53-62).  `sha` is the external digest collaborator and
`contents` maps each fragment path to its current bytes. -/
def calculateFileHash (sha : String → String) (contents : FragPath → String)
    (f : FragPath) : String :=
  sha (contents f)

/-- Combined hash of a fragment list (src/index.ts lines 64-79): per-file
digests are computed in batches of 5 and fed, in list order, into one final
digest; feeding an incremental digest is modelled as applying `sha` to the
concatenation of everything fed. -/
def calculateHash (sha : String → String) (contents : FragPath → String)
    (files : List FragPath) : String :=
  sha (concatAll ((chunks5 files).map
    (fun batch => concatAll (batch.map (calculateFileHash sha contents)))))

/-- Concatenation built by the merge loop (src/index.ts lines 311-321): each
batch of 5 contents is joined with a newline, and the per-batch strings are
appended with `+=`, i.e. with no separator between consecutive batches. -/
def combinedContent (cs : List String) : String :=
  concatAll ((chunks5 cs).map (String.intercalate "\n"))

/-- Change-detection condition of src/index.ts lines 305-309: the fingerprint
differs, or the scanned list length differs from the remembered set size, or
some scanned path is missing from the remembered set. -/
def hasChangedB (currentHash : String) (moduleFiles : List FragPath)
    (lastKnownFiles : List FragPath) (lastKnownHash : String) : Bool :=
  (currentHash != lastKnownHash)
    || (moduleFiles.length != lastKnownFiles.length)
    || !(moduleFiles.all fun f => lastKnownFiles.contains f)

/-- `setupInitialFiles` (src/index.ts lines 128-199): opening both buffers in
`a+` mode creates them (empty) if absent; the dangling-link checks unlink the
main link when the shadow link is absent (the shadow link itself always targets
a buffer, which now exists, so it is never dangling here); then the shadow link
is created pointing at the backup buffer if absent, and the main link is
created pointing at the shadow link if absent. -/
def setupInitialFiles (fs : FS) : FS :=
  let afterOpen : FS :=
    { fs with
      tempContent := some (fs.tempContent.getD "")
      backupContent := some (fs.backupContent.getD "") }
  let afterMainCheck : FS :=
    if afterOpen.mainLinked = true ∧ afterOpen.shadowTarget = none then
      { afterOpen with mainLinked := false }
    else afterOpen
  let afterShadowCreate : FS :=
    match afterMainCheck.shadowTarget with
    | none => { afterMainCheck with shadowTarget := some Buffer.backup }
    | some _ => afterMainCheck
  if afterShadowCreate.mainLinked then afterShadowCreate
  else { afterShadowCreate with mainLinked := true }

/-- `atomicStyleUpdate` (src/index.ts lines 201-251).  Returns the success
flag, the resulting filesystem state, and the list of mutations performed.

Branches, mirroring the source: empty (after trim) non-forced content returns
`false` with no mutation (lines 203-207); an unreadable shadow link takes the
first-publish path (lines 211-219): write the backup buffer, link the shadow
to it, then link the main link to the shadow — the last step throws `EEXIST`
when the main link already exists, caught by the outer handler which returns
`false`; otherwise the swap path (lines 221-236): write the buffer the shadow
does not point at, replace the shadow link to point at it, then copy the
content to the now-inactive buffer.  `linkFail` injects a failure of the
link-replacement step (the first unlink throwing), whose handler restores the
shadow link to its prior target and rethrows; the outer handler then returns
`false` (lines 237-250). -/
def atomicStyleUpdate (linkFail : Bool) (fs : FS) (newContent : String)
    (forceUpdate : Bool) : Bool × FS × List FsEvent :=
  if trimEmpty newContent = true ∧ forceUpdate = false then
    (false, fs, [])
  else
    match fs.shadowTarget with
    | none =>
      let fs1 := (fs.writeBuf Buffer.backup newContent)
      let fs2 := { fs1 with shadowTarget := some Buffer.backup }
      if fs2.mainLinked then
        (false, fs2, [FsEvent.writeBuf Buffer.backup newContent, FsEvent.linkShadow Buffer.backup])
      else
        (true, { fs2 with mainLinked := true },
          [FsEvent.writeBuf Buffer.backup newContent, FsEvent.linkShadow Buffer.backup,
            FsEvent.linkMain])
    | some currentTarget =>
      let activeFile := if currentTarget = Buffer.backup then Buffer.temp else Buffer.backup
      let inactiveFile := if currentTarget = Buffer.backup then Buffer.backup else Buffer.temp
      let fs1 := fs.writeBuf activeFile newContent
      if linkFail then
        (false, { fs1 with shadowTarget := some currentTarget },
          [FsEvent.writeBuf activeFile newContent, FsEvent.unlinkShadow,
            FsEvent.linkShadow currentTarget])
      else
        let fs2 := { fs1 with shadowTarget := some activeFile }
        let fs3 := fs2.writeBuf inactiveFile newContent
        (true, fs3,
          [FsEvent.writeBuf activeFile newContent, FsEvent.unlinkShadow,
            FsEvent.linkShadow activeFile, FsEvent.writeBuf inactiveFile newContent])

/-- External collaborators of a refresh run plus failure-injection flags:
`sha` the digest, `dedup` the postcss discard-duplicates transform, `contents`
the bytes of each fragment path; `scanErr` makes `getAllFiles` throw,
`hashErr` makes `calculateHash` throw, `readErr` makes a batched fragment read
throw, `postcssErr` makes the collaborator throw, `linkFail` makes the
link-replacement step of `atomicStyleUpdate` throw. -/
structure RunEnv where
  sha : String → String
  dedup : String → String
  contents : FragPath → String
  scanErr : Bool
  hashErr : Bool
  readErr : Bool
  postcssErr : Bool
  linkFail : Bool

/-- Outcome of one `onSuccess` call: the new plugin state, the Atomic
Publisher mutations performed, and whether the commit branch ran
(src/index.ts line 336 `if (success)`). -/
structure RefreshResult where
  st : PluginState
  events : List FsEvent
  commit : Bool
deriving DecidableEq

/-- One environment with no injected failures. -/
def noFailEnv (sha dedup : String → String) (contents : FragPath → String) : RunEnv :=
  { sha := sha, dedup := dedup, contents := contents,
    scanErr := false, hashErr := false, readErr := false,
    postcssErr := false, linkFail := false }

/-- `onSuccess` (src/index.ts lines 272-372), the refresh operation.  The
scanner result is passed in as `moduleFiles`.  Order of steps mirrors the
source: `setupInitialFiles`, scan, read the currently published content
through the shadow link, then either the change-detection/merge/publish
branch (non-empty scan), the verbose-gated preservation branch (no change
detected, lines 341-349), or the empty-scan branch (lines 350-366).  Every
thrown error is caught at the boundary (line 367) leaving the detector state
untouched. -/
def onSuccess (env : RunEnv) (opts : MergeCssPluginOptions)
    (moduleFiles : List FragPath) (st : PluginState) : RefreshResult :=
  let verbose := opts.verbose.getD true
  let fs0 := setupInitialFiles st.fs
  if env.scanErr then
    { st := { st with fs := fs0 }, events := [], commit := false }
  else
    let currentContent := (fs0.shadowTarget.bind fs0.readBuffer).getD ""
    if moduleFiles.length > 0 then
      if env.hashErr then
        { st := { st with fs := fs0 }, events := [], commit := false }
      else
        let currentHash := calculateHash env.sha env.contents moduleFiles
        if hasChangedB currentHash moduleFiles st.lastKnownFiles st.lastKnownHash then
          if env.readErr then
            { st := { st with fs := fs0 }, events := [], commit := false }
          else if env.postcssErr then
            { st := { st with fs := fs0 }, events := [], commit := false }
          else
            let result := env.dedup (combinedContent (moduleFiles.map env.contents))
            let out := atomicStyleUpdate env.linkFail fs0 result false
            if out.1 then
              { st := { lastKnownFiles := jsSet moduleFiles, lastKnownHash := currentHash,
                        fs := out.2.1 },
                events := out.2.2, commit := true }
            else
              { st := { st with fs := out.2.1 }, events := out.2.2, commit := false }
        else
          if verbose ∧ trimEmpty currentContent = false then
            let out := atomicStyleUpdate env.linkFail fs0 currentContent false
            { st := { st with fs := out.2.1 }, events := out.2.2, commit := false }
          else
            { st := { st with fs := fs0 }, events := [], commit := false }
    else
      if trimEmpty currentContent = false then
        let out := atomicStyleUpdate env.linkFail fs0 currentContent false
        { st := { st with fs := out.2.1 }, events := out.2.2, commit := false }
      else
        let out := atomicStyleUpdate env.linkFail fs0 "" false
        { st := { st with fs := out.2.1 }, events := out.2.2, commit := false }

/-- `onClear` (src/index.ts lines 374-382): force-publish empty content; note
it does not run `setupInitialFiles`. -/
def onClear (linkFail : Bool) (st : PluginState) : PluginState × List FsEvent :=
  let out := atomicStyleUpdate linkFail st.fs "" true
  ({ st with fs := out.2.1 }, out.2.2)

/-- A filesystem state in which setup has completed: both buffers exist, the
shadow link exists, and the main link exists (pointing at the shadow link). -/
def Initialized (fs : FS) : Prop :=
  fs.tempContent.isSome = true ∧ fs.backupContent.isSome = true ∧
    fs.shadowTarget.isSome = true ∧ fs.mainLinked = true

/-- Ordering property of a publication trace: every repointing of the shadow
link at a buffer is preceded by a complete write of `c` to that buffer. -/
def writeBeforeLink (tr : List FsEvent) (c : String) : Prop :=
  ∀ i b, tr.get? i = some (FsEvent.linkShadow b) →
    ∃ j, j < i ∧ tr.get? j = some (FsEvent.writeBuf b c)

/-- Recognizer for buffer-write events. -/
def isBufWrite : FsEvent → Bool
  | FsEvent.writeBuf _ _ => true
  | _ => false

/-- Concrete digest collaborator used in closed runs: prepends a marker, so a
digest is never the empty string. -/
def exSha : String → String :=
  fun s => "#" ++ s

/-- Concrete fragment contents used in closed runs. -/
def exContents : FragPath → String :=
  fun f => f ++ " rule"

/-- Concrete contents function assigning every path the same body (used to
model a rename that keeps contents identical). -/
def exBody : FragPath → String :=
  fun _ => "shared body"

/-- Failure-free environment with an identity deduplication collaborator. -/
def exEnv : RunEnv :=
  noFailEnv exSha id exContents

/-- Failure-free environment whose deduplication collaborator rewrites any
input to a fixed string, making its execution observable. -/
def exDedupEnv : RunEnv :=
  noFailEnv exSha (fun _ => "deduped output") exContents

/-- Options with every field unset (so `verbose` defaults to true). -/
def exOptsDefault : MergeCssPluginOptions :=
  { extensions := none, deduplicate := none, verbose := none }

/-- Options with `verbose` explicitly disabled. -/
def exOptsQuiet : MergeCssPluginOptions :=
  { extensions := none, deduplicate := none, verbose := some false }

/-- Options with `deduplicate` explicitly disabled. -/
def exOptsNoDedup : MergeCssPluginOptions :=
  { extensions := none, deduplicate := some false, verbose := none }

/-- Result of a first refresh over the single fragment `"a"` from the initial
state, used as a concrete post-refresh state in closed theorems. -/
def exFirst : RefreshResult :=
  onSuccess exEnv exOptsDefault ["a"] initialState

instance decidableInitialized (fs : FS) : Decidable (Initialized fs) :=
  inferInstanceAs (Decidable (fs.tempContent.isSome = true ∧ fs.backupContent.isSome = true ∧
    fs.shadowTarget.isSome = true ∧ fs.mainLinked = true))

/-! Helper lemmas about the chunked concatenations, setup, and publication. -/

theorem exSha_ne_empty (s : String) : exSha s ≠ "" := by
  intro h
  have hl := congrArg String.length h
  simp [exSha, String.length_append] at hl
  exact absurd hl.1 (by decide)

theorem concatAll_append (l1 l2 : List String) :
    concatAll (l1 ++ l2) = concatAll l1 ++ concatAll l2 := by
  induction l1 with
  | nil => simp [concatAll]
  | cons s l ih => simp [concatAll, ih, String.append_assoc]

theorem chunksAux_concat_map {α : Type} (h : α → String) :
    ∀ (l cur : List α) (k : Nat),
      concatAll ((chunksAux k cur l).map (fun b => concatAll (b.map h))) =
        concatAll ((cur.reverse ++ l).map h) := by
  intro l
  induction l with
  | nil =>
    intro cur k
    by_cases hc : cur.isEmpty
    · rw [List.isEmpty_iff] at hc
      simp [chunksAux, hc, concatAll]
    · simp only [chunksAux, hc, if_false]
      simp [concatAll]
  | cons a l ih =>
    intro cur k
    cases k with
    | zero =>
      simp only [chunksAux, List.map_cons, concatAll, ih [a] 4]
      simp [List.map_append, concatAll_append, concatAll, String.append_assoc]
    | succ k =>
      rw [chunksAux, ih (a :: cur) k]
      simp [String.append_assoc]

theorem calculateHash_eq_flat (sha : String → String) (contents : FragPath → String)
    (files : List FragPath) :
    calculateHash sha contents files =
      sha (concatAll (files.map (fun f => sha (contents f)))) := by
  unfold calculateHash chunks5 calculateFileHash
  rw [chunksAux_concat_map]
  simp

theorem chunksAux_of_length_le {α : Type} :
    ∀ (l cur : List α) (k : Nat), l.length ≤ k → (cur ≠ [] ∨ l ≠ []) →
      chunksAux k cur l = [cur.reverse ++ l] := by
  intro l
  induction l with
  | nil =>
    intro cur k _ hor
    have hcur : cur ≠ [] := by
      rcases hor with h | h
      · exact h
      · exact absurd rfl h
    have : cur.isEmpty = false := by
      cases cur with
      | nil => exact absurd rfl hcur
      | cons x xs => rfl
    simp [chunksAux, this]
  | cons a l ih =>
    intro cur k hlen hor
    cases k with
    | zero => simp at hlen
    | succ k =>
      rw [chunksAux, ih (a :: cur) k (by simpa using hlen) (Or.inl (by simp))]
      simp

theorem chunks5_of_short {α : Type} (l : List α) (hne : l ≠ []) (hlen : l.length ≤ 5) :
    chunks5 l = [l] := by
  unfold chunks5
  rw [chunksAux_of_length_le l [] 5 hlen (Or.inr hne)]
  simp

theorem combinedContent_short (cs : List String) (hne : cs ≠ []) (hlen : cs.length ≤ 5) :
    combinedContent cs = String.intercalate "\n" cs := by
  unfold combinedContent
  rw [chunks5_of_short cs hne hlen]
  simp [concatAll]

theorem setupInitialFiles_initialized (fs : FS) : Initialized (setupInitialFiles fs) := by
  rcases fs with ⟨t, b, s, m⟩
  cases s <;> cases m <;> simp [setupInitialFiles, Initialized]

theorem setupInitialFiles_eq_self (fs : FS) (h : Initialized fs) :
    setupInitialFiles fs = fs := by
  obtain ⟨h1, h2, h3, h4⟩ := h
  rcases fs with ⟨t, b, s, m⟩
  cases t with
  | none => simp at h1
  | some tc =>
    cases b with
    | none => simp at h2
    | some bc =>
      cases s with
      | none => simp at h3
      | some sb =>
        simp only at h4
        subst h4
        simp [setupInitialFiles]

theorem resolveMain_of_initialized (fs : FS) (h : Initialized fs) :
    fs.resolveMain = some ((fs.shadowTarget.bind fs.readBuffer).getD "") := by
  obtain ⟨h1, h2, h3, h4⟩ := h
  rcases fs with ⟨t, b, s, m⟩
  cases t with
  | none => simp at h1
  | some tc =>
    cases b with
    | none => simp at h2
    | some bc =>
      cases s with
      | none => simp at h3
      | some sb =>
        simp only at h4
        subst h4
        cases sb <;> simp [FS.resolveMain, FS.readBuffer]

theorem resolveMain_republish (lf : Bool) (fs : FS) (h : Initialized fs) :
    ((atomicStyleUpdate lf fs ((fs.shadowTarget.bind fs.readBuffer).getD "") false).2.1).resolveMain
      = fs.resolveMain := by
  obtain ⟨h1, h2, h3, h4⟩ := h
  rcases fs with ⟨t, b, s, m⟩
  cases t with
  | none => simp at h1
  | some tc =>
    cases b with
    | none => simp at h2
    | some bc =>
      cases s with
      | none => simp at h3
      | some sb =>
        simp only at h4
        subst h4
        cases sb <;> cases lf <;>
          simp [atomicStyleUpdate, FS.writeBuf, FS.resolveMain, FS.readBuffer] <;>
          split <;> simp [FS.writeBuf, FS.resolveMain, FS.readBuffer]

theorem hasChangedB_eq_false (h lh : String) (new last : List FragPath)
    (hh : h = lh) (hl : new.length = last.length) (hm : ∀ f ∈ new, f ∈ last) :
    hasChangedB h new last lh = false := by
  simp [hasChangedB, hh, hl, List.all_eq_true]
  exact hm

theorem writeBeforeLink_nil (c : String) : writeBeforeLink [] c := by
  intro i b hget
  simp [List.get?] at hget

theorem writeBeforeLink_first_publish (c : String) :
    writeBeforeLink
      [FsEvent.writeBuf Buffer.backup c, FsEvent.linkShadow Buffer.backup] c := by
  intro i b hget
  match i with
  | 0 => simp [List.get?] at hget
  | 1 =>
    simp [List.get?] at hget
    exact ⟨0, by omega, by simp [List.get?, hget]⟩
  | Nat.succ (Nat.succ n) => simp [List.get?] at hget

theorem writeBeforeLink_first_publish_main (c : String) :
    writeBeforeLink
      [FsEvent.writeBuf Buffer.backup c, FsEvent.linkShadow Buffer.backup,
        FsEvent.linkMain] c := by
  intro i b hget
  match i with
  | 0 => simp [List.get?] at hget
  | 1 =>
    simp [List.get?] at hget
    exact ⟨0, by omega, by simp [List.get?, hget]⟩
  | 2 => simp [List.get?] at hget
  | Nat.succ (Nat.succ (Nat.succ n)) => simp [List.get?] at hget

theorem writeBeforeLink_swap (a b : Buffer) (c : String) :
    writeBeforeLink
      [FsEvent.writeBuf a c, FsEvent.unlinkShadow, FsEvent.linkShadow a,
        FsEvent.writeBuf b c] c := by
  intro i b' hget
  match i with
  | 0 => simp [List.get?] at hget
  | 1 => simp [List.get?] at hget
  | 2 =>
    simp [List.get?] at hget
    exact ⟨0, by omega, by simp [List.get?, hget]⟩
  | 3 => simp [List.get?] at hget
  | Nat.succ (Nat.succ (Nat.succ (Nat.succ n))) => simp [List.get?] at hget

/-- Shared helper: publishing empty content without force is a no-op
(src/index.ts lines 203-207). -/
theorem atomicStyleUpdate_empty (lf : Bool) (fs : FS) :
    atomicStyleUpdate lf fs "" false = (false, fs, []) := by
  simp [atomicStyleUpdate, trimEmpty]

/-! Claim theorems. -/

/-- C2 (code bug): the `deduplicate` option is declared (src/index.ts lines
81-85) and documented as controlling whether the rule-merge collaborator runs,
but the plugin destructures only `verbose` from its options (line 93) and
always feeds the concatenation through the postcss discard-duplicates
transform (line 324): with `deduplicate := some false`, a refresh still
publishes the collaborator output rather than the pass-through concatenation. -/
theorem dedup_option_ignored :
    (onSuccess exDedupEnv exOptsNoDedup ["a"] initialState).st.fs.resolveMain =
        some "deduped output" ∧
    combinedContent (["a"].map exDedupEnv.contents) ≠ "deduped output" := by
  decide

/-- C4 (amended): the merge step builds the collaborator input by joining each
batch of 5 fragment contents with a newline and concatenating consecutive
batches without a separator; for at most five fragments this equals the full
newline-join of all fragment contents in FragmentSet order. -/
theorem merge_concat_within_batch (files : List FragPath) (contents : FragPath → String)
    (hne : files ≠ []) (hlen : files.length ≤ 5) :
    combinedContent (files.map contents) =
      String.intercalate "\n" (files.map contents) := by
  apply combinedContent_short
  · intro hmap
    exact hne (List.map_eq_nil_iff.mp hmap)
  · simpa using hlen

/-- C4 witness: the amended statement evaluated on one concrete fragment. -/
theorem merge_concat_within_batch_witness :
    combinedContent (["a"].map exContents) =
      String.intercalate "\n" (["a"].map exContents) :=
  merge_concat_within_batch ["a"] exContents (by decide) (by decide)

/-- C4 counterexample: with six fragments the pair at the batch boundary (the
fifth and sixth contents) is concatenated without a newline separator, so the
collaborator input is not the full list of contents joined with a newline. -/
theorem merge_concat_counterexample :
    combinedContent ["a", "b", "c", "d", "e", "f"] ≠
      String.intercalate "\n" ["a", "b", "c", "d", "e", "f"] := by
  decide

/-- C5: change detection reports changed exactly when the fingerprint differs,
or the scanned count differs from the remembered set size, or some scanned
path is absent from the remembered set; and on the first refresh (remembered
hash the empty string and remembered set empty, src/index.ts lines 121-122)
every non-empty fragment list reports changed, given a digest collaborator
that never returns the empty string. -/
theorem hasChanged_spec (h lh : String) (new last : List FragPath)
    (sha : String → String) (contents : FragPath → String) (files : List FragPath)
    (hsha : ∀ s, sha s ≠ "") (hne : files ≠ []) :
    (hasChangedB h new last lh = true ↔
      (h ≠ lh ∨ new.length ≠ last.length ∨ ∃ f ∈ new, f ∉ last)) ∧
    hasChangedB (calculateHash sha contents files) files
      initialState.lastKnownFiles initialState.lastKnownHash = true := by
  constructor
  · simp [hasChangedB, List.all_eq_true]
    tauto
  · simp [hasChangedB, initialState, List.all_eq_true]
    exact Or.inl (Or.inl (by rw [calculateHash_eq_flat]; exact hsha _))

/-- C5 witness: the statement evaluated at concrete inputs. -/
theorem hasChanged_spec_witness :
    (hasChangedB "x" ["a"] [] "" = true ↔
      ("x" ≠ "" ∨ (["a"] : List FragPath).length ≠ ([] : List FragPath).length ∨
        ∃ f ∈ (["a"] : List FragPath), f ∉ ([] : List FragPath))) ∧
    hasChangedB (calculateHash exSha exContents ["a"]) ["a"]
      initialState.lastKnownFiles initialState.lastKnownHash = true :=
  hasChanged_spec "x" "" ["a"] [] exSha exContents ["a"] exSha_ne_empty (by decide)

/-- C6: `atomicStyleUpdate` called with empty content and `force = false`
returns not applied and performs no filesystem mutation; consequently a
refresh that scans zero fragments, from a set-up state whose published
artifact is `c`, leaves the artifact reachable through the main link at `c`
rather than clearing it. -/
theorem publish_empty_noop (lf : Bool) (fs : FS) (env : RunEnv)
    (opts : MergeCssPluginOptions) (st : PluginState) (c : String)
    (hInit : Initialized st.fs) (hPrior : st.fs.resolveMain = some c) :
    atomicStyleUpdate lf fs "" false = (false, fs, []) ∧
    ((onSuccess env opts [] st).st.fs).resolveMain = some c := by
  refine ⟨atomicStyleUpdate_empty lf fs, ?_⟩
  have hset := setupInitialFiles_eq_self st.fs hInit
  have hre := resolveMain_republish env.linkFail st.fs hInit
  have hro := resolveMain_of_initialized st.fs hInit
  simp only [onSuccess, hset]
  split
  · exact hPrior
  · split
    · next h => simp at h
    · split
      · exact hre.trans hPrior
      · rw [atomicStyleUpdate_empty]
        exact hPrior

/-- C6 witness: the statement evaluated at a concrete post-refresh state. -/
theorem publish_empty_noop_witness :
    atomicStyleUpdate false initialFS "" false = (false, initialFS, []) ∧
    ((onSuccess exEnv exOptsDefault [] exFirst.st).st.fs).resolveMain =
      some "a rule" :=
  publish_empty_noop false initialFS exEnv exOptsDefault exFirst.st "a rule"
    (by decide) (by decide)

/-- C7: in every publish (with no injected link failure), the shadow link is
repointed at a buffer file only after the new content has been completely
written to that buffer — on the swap path and on the first-publish path
alike. -/
theorem publish_write_before_link (fs : FS) (c : String) (force : Bool) :
    writeBeforeLink (atomicStyleUpdate false fs c force).2.2 c := by
  unfold atomicStyleUpdate
  split
  · exact writeBeforeLink_nil c
  · split
    · dsimp only
      split
      · exact writeBeforeLink_first_publish c
      · exact writeBeforeLink_first_publish_main c
    · dsimp only
      split
      · next h => exact absurd h (by simp)
      · exact writeBeforeLink_swap _ _ c

/-- C7 witness: on a concrete swap-path publish, the link event at index 2 is
preceded by a complete write of the published content at index 0. -/
theorem publish_write_before_link_witness :
    ∃ j, j < 2 ∧
      ((atomicStyleUpdate false exFirst.st.fs "x" false).2.2).get? j =
        some (FsEvent.writeBuf Buffer.backup "x") :=
  publish_write_before_link exFirst.st.fs "x" false 2 Buffer.backup (by decide)

/-- C8: the change detector's remembered state (`lastKnownFiles`,
`lastKnownHash`) is replaced only when the publish step reports success: any
refresh whose commit branch did not run — scan, hashing, fragment-read,
collaborator, or publication failure, and a publish that reports not applied —
leaves both components unchanged (src/index.ts lines 334-340). -/
theorem detector_updated_only_on_commit (env : RunEnv) (opts : MergeCssPluginOptions)
    (files : List FragPath) (st : PluginState)
    (h : (onSuccess env opts files st).commit = false) :
    (onSuccess env opts files st).st.lastKnownFiles = st.lastKnownFiles ∧
    (onSuccess env opts files st).st.lastKnownHash = st.lastKnownHash := by
  revert h
  simp only [onSuccess]
  repeat' split
  all_goals intro h
  all_goals simp_all

/-- C8 witness: the statement evaluated at a concrete non-committing refresh. -/
theorem detector_updated_only_on_commit_witness :
    (onSuccess exEnv exOptsDefault [] initialState).st.lastKnownFiles =
        initialState.lastKnownFiles ∧
    (onSuccess exEnv exOptsDefault [] initialState).st.lastKnownHash =
        initialState.lastKnownHash :=
  detector_updated_only_on_commit exEnv exOptsDefault [] initialState (by decide)

/-- C9: after `onClear`, resolving the main link through the shadow link
yields empty content, for every publication state (every state in which the
main link exists whenever the shadow link does; the shadow-absent case is a
first clear, which creates both links): clear force-publishes empty content,
bypassing the empty-content no-op check of publish (src/index.ts line 377). -/
theorem clear_empties_artifact (st : PluginState)
    (h : st.fs.shadowTarget = none ∨ st.fs.mainLinked = true) :
    ((onClear false st).1.fs).resolveMain = some "" := by
  rcases st with ⟨lkf, lkh, fs⟩
  rcases fs with ⟨t, b, s, m⟩
  simp only at h
  rcases s with _ | sb
  · cases m <;>
      simp [onClear, atomicStyleUpdate, FS.writeBuf, FS.resolveMain, FS.readBuffer]
  · have hm : m = true := by
      rcases h with h | h
      · exact absurd h (by simp)
      · exact h
    subst hm
    cases sb <;>
      simp [onClear, atomicStyleUpdate, FS.writeBuf, FS.resolveMain, FS.readBuffer]

/-- C9 witness: a clear from the pristine state leaves an empty artifact. -/
theorem clear_empties_artifact_witness :
    ((onClear false initialState).1.fs).resolveMain = some "" :=
  clear_empties_artifact initialState (Or.inl rfl)

/-- C10: the combined fingerprint depends only on the ordered sequence of
fragment contents, not on the fragment paths; consequently, for a rename that
preserves contents and count, the fingerprint comparison and the size
comparison cannot fire, and change detection reduces to the independent
set-membership check. -/
theorem hash_depends_on_contents_only (sha : String → String)
    (c1 c2 : FragPath → String) (f1 f2 last : List FragPath)
    (hmap : f1.map c1 = f2.map c2) (hlen : f2.length = last.length) :
    calculateHash sha c1 f1 = calculateHash sha c2 f2 ∧
    hasChangedB (calculateHash sha c2 f2) f2 last (calculateHash sha c1 f1) =
      !(f2.all fun f => last.contains f) := by
  have hflat : calculateHash sha c1 f1 = calculateHash sha c2 f2 := by
    rw [calculateHash_eq_flat, calculateHash_eq_flat]
    have hmm := congrArg (List.map sha) hmap
    have hmm2 : f1.map (fun f => sha (c1 f)) = f2.map (fun f => sha (c2 f)) := by
      simpa [List.map_map, Function.comp] using hmm
    rw [hmm2]
  refine ⟨hflat, ?_⟩
  rw [hflat]
  simp [hasChangedB, hlen]

/-- C10 witness: renaming the single fragment `"a"` to `"b"` with identical
contents keeps the fingerprint, and only the membership check reports it. -/
theorem hash_depends_on_contents_only_witness :
    calculateHash exSha exBody ["a"] = calculateHash exSha exBody ["b"] ∧
    hasChangedB (calculateHash exSha exBody ["b"]) ["b"] ["a"]
        (calculateHash exSha exBody ["a"]) =
      !((["b"] : List FragPath).all fun f => (["a"] : List FragPath).contains f) :=
  hash_depends_on_contents_only exSha exBody exBody ["a"] ["b"] ["a"]
    (by decide) (by decide)

/-- C3 (amended): the `verbose` option never changes the artifact reachable
through the main link — two refreshes from the same state over the same
fragments, differing only in `verbose`, leave identical published content —
but it does gate the unchanged-content re-publish (src/index.ts lines
341-349), so the sequences of buffer writes and link operations may differ. -/
theorem verbose_preserves_artifact (env : RunEnv) (ext : Option (List String))
    (ded : Option Bool) (v1 v2 : Option Bool) (files : List FragPath)
    (st : PluginState) :
    ((onSuccess env ⟨ext, ded, v1⟩ files st).st.fs).resolveMain =
      ((onSuccess env ⟨ext, ded, v2⟩ files st).st.fs).resolveMain := by
  have hinit := setupInitialFiles_initialized st.fs
  have hre := resolveMain_republish env.linkFail (setupInitialFiles st.fs) hinit
  simp only [onSuccess]
  repeat' split
  all_goals first
    | rfl
    | exact hre
    | exact hre.symm

/-- C3 witness: the amended statement evaluated at concrete verbose values on
a concrete unchanged-fragments state. -/
theorem verbose_preserves_artifact_witness :
    ((onSuccess exEnv ⟨none, none, none⟩ ["a"] exFirst.st).st.fs).resolveMain =
      ((onSuccess exEnv ⟨none, none, some false⟩ ["a"] exFirst.st).st.fs).resolveMain :=
  verbose_preserves_artifact exEnv none none none (some false) ["a"] exFirst.st

/-- C3 counterexample: from the same post-refresh state with unchanged
fragments, a verbose run performs a re-publish (buffer writes and a link
swap) that a quiet run skips entirely, so the two runs do not perform the
same sequence of filesystem mutations: `verbose` does affect control flow. -/
theorem verbose_changes_mutations :
    (onSuccess exEnv exOptsDefault ["a"] exFirst.st).events ≠
      (onSuccess exEnv exOptsQuiet ["a"] exFirst.st).events := by
  decide

/-- C1 (amended): a second refresh with no fragment added, removed, or
modified publishes byte-identical content (the artifact reachable through the
main link is unchanged) and never commits; with `verbose` disabled it
performs no filesystem mutation at all, while with `verbose` enabled (the
default) it re-publishes the unchanged content through the full swap
machinery, rewriting both buffer files (src/index.ts lines 341-349). -/
theorem refresh_unchanged_idempotent (sha dedup : String → String)
    (contents : FragPath → String) (ext : Option (List String)) (ded : Option Bool)
    (vb : Option Bool) (files : List FragPath) (st : PluginState)
    (hInit : Initialized st.fs)
    (hhash : calculateHash sha contents files = st.lastKnownHash)
    (hlen : files.length = st.lastKnownFiles.length)
    (hmem : ∀ f ∈ files, f ∈ st.lastKnownFiles)
    (hne : files ≠ []) :
    ((onSuccess (noFailEnv sha dedup contents) ⟨ext, ded, vb⟩ files st).st.fs).resolveMain =
        st.fs.resolveMain ∧
    (onSuccess (noFailEnv sha dedup contents) ⟨ext, ded, vb⟩ files st).commit = false ∧
    (vb = some false →
      (onSuccess (noFailEnv sha dedup contents) ⟨ext, ded, vb⟩ files st).events = []) := by
  have hset := setupInitialFiles_eq_self st.fs hInit
  have hre := resolveMain_republish false st.fs hInit
  have hch := hasChangedB_eq_false _ _ _ _ hhash hlen hmem
  have hpos : files.length > 0 := by
    cases files with
    | nil => exact absurd rfl hne
    | cons a l => simp
  simp only [onSuccess, noFailEnv, hset, hch, hpos, if_true, if_false, Bool.false_eq_true,
    ite_false, ite_true, gt_iff_lt]
  refine ⟨?_, ?_, ?_⟩
  · split
    · exact hre
    · rfl
  · split <;> rfl
  · intro hv
    subst hv
    simp

/-- C1 witness: the amended statement evaluated with verbose disabled on a
concrete post-refresh state with unchanged fragments. -/
theorem refresh_unchanged_idempotent_witness :
    ((onSuccess (noFailEnv exSha id exContents) ⟨none, none, some false⟩ ["a"]
        exFirst.st).st.fs).resolveMain = exFirst.st.fs.resolveMain ∧
    (onSuccess (noFailEnv exSha id exContents) ⟨none, none, some false⟩ ["a"]
        exFirst.st).commit = false ∧
    (some false = some false →
      (onSuccess (noFailEnv exSha id exContents) ⟨none, none, some false⟩ ["a"]
        exFirst.st).events = []) :=
  refresh_unchanged_idempotent exSha id exContents none none (some false) ["a"] exFirst.st
    (by decide) (by decide) (by decide) (by decide) (by decide)

/-- C1 counterexample: with default options, a refresh following a successful
refresh with unchanged fragments does write to the buffer files — it
re-publishes the unchanged content through the swap machinery — refuting the
no-buffer-write part of the claim (the content itself stays byte-identical). -/
theorem refresh_unchanged_writes :
    exFirst.commit = true ∧
    ((onSuccess exEnv exOptsDefault ["a"] exFirst.st).events.any isBufWrite) = true := by
  decide

end MergeCss
